import Mathlib

/-!
A shallow embedding of the expiry cache engine (`src/cache.py`, class `KVCache`)
and the reader/writer lock (`src/thread.py`, class `RWLock`) of the pytools
repository, together with theorems settling the frozen claims about them.

Conventions of the embedding:
- keys, values and timestamps are natural numbers; the wall clock `time()` is
  passed in explicitly as a `now` parameter;
- the primary index `self._kv_data` (a Python dict) is an association list
  `List (Key × Nat × Val)` mapping a key to its `(expire_value, value)` pair;
- the priority queue `self._sorted_keys` is a list of `QElem`; `QElem.num e`
  models a bare number record (which is what line 100 of cache.py,
  `self._sorted_keys.put(expire_value, key)`, enqueues: `key` is passed as the
  `block` argument of `Queue.put`, so the stored item is `expire_value` alone)
  and `QElem.pair e k` models a `(expire_value, key)` tuple record;
- a Python `TypeError` (subscripting a bare number with `[1]`, or comparing a
  bare number against a tuple inside the heap) is modelled as an explicit
  error outcome; the `_release_lock` context manager catches every exception
  from its guarded body and merely logs it, so at the operation level a raise
  is modelled as "return to the caller with the state at the raise point";
- loops are given explicit fuel; running out of fuel is a distinguished
  `Option.none` / `NewsetRes.no_fuel` outcome that no theorem relies on;
- the reader/writer lock is modelled as a transition system whose guards are
  the exit conditions of the source's wait loops, with two ghost counters
  (`readers`, `writers`) counting the threads currently holding the lock.
-/

abbrev Key := Nat
abbrev Val := Nat

/-- An element of the `_sorted_keys` priority queue.  `num e` is a bare
number (enqueued by `put(expire_value, key)` at cache.py line 100, where
`key` lands in the `block` parameter); `pair e k` is an `(expire_value, key)`
tuple (enqueued at lines 113, 117, 126 and 177). -/
inductive QElem
  | num (e : Nat)
  | pair (e : Nat) (k : Key)
deriving DecidableEq, Repr

/-- Python comparison of two queue elements: comparable only when both are
numbers or both are tuples; mixing the two raises `TypeError`, modelled as
`none`.  Tuples compare lexicographically. -/
def qle : QElem → QElem → Option Bool
  | QElem.num a, QElem.num b => some (a ≤ b)
  | QElem.pair a k1, QElem.pair b k2 => some (a < b ∨ (a = b ∧ k1 ≤ k2))
  | _, _ => none

/-- Result of `self._sorted_keys.get_nowait()`: the queue is empty
(`queue.Empty`), or the minimum element is returned and removed, or a
comparison between incompatible elements raises `TypeError`. -/
inductive PopRes
  | ty_err
  | empty
  | found (x : QElem) (rest : List QElem)
deriving DecidableEq, Repr

/-- Scan for the minimum of the queue, keeping the remaining elements.
`best` is the least element seen so far, `acc` the other elements seen. -/
def popMinGo (best : QElem) (acc : List QElem) : List QElem → PopRes
  | [] => PopRes.found best acc.reverse
  | x :: xs =>
    match qle x best with
    | none => PopRes.ty_err
    | some true => popMinGo x (best :: acc) xs
    | some false => popMinGo best (x :: acc) xs

/-- Model of `get_nowait` on the priority queue: remove and return a minimum element. -/
def popMin : List QElem → PopRes
  | [] => PopRes.empty
  | x :: xs => popMinGo x [] xs

/-- Model of `put` on the priority queue, viewed as a multiset of records. -/
def qput (x : QElem) (q : List QElem) : List QElem := q ++ [x]

/-- Subscript `pop_value[1]`: the key component of a queue record.  On a bare number
record this raises `TypeError`, modelled as `none`. -/
def subscript1 : QElem → Option Key
  | QElem.num _ => none
  | QElem.pair _ k => some k

/-- Subscript `pop_value[0]`: the expiry component of a queue record.  In the source it
is only evaluated after `pop_value[1]` succeeded, hence only on tuples. -/
def elem0 : QElem → Nat
  | QElem.num e => e
  | QElem.pair e _ => e

/-- Lookup `self._kv_data[key]` via `dict.get`: first matching entry, if any. -/
def kvLookup : List (Key × Nat × Val) → Key → Option (Nat × Val)
  | [], _ => none
  | (k, p) :: rest, key => if k = key then some p else kvLookup rest key

/-- Assignment `self._kv_data[key] = p`: replace the entry in place, or append. -/
def kvSet : List (Key × Nat × Val) → Key → Nat × Val → List (Key × Nat × Val)
  | [], key, p => [(key, p)]
  | (k, q) :: rest, key, p =>
    if k = key then (key, p) :: rest else (k, q) :: kvSet rest key p

/-- Deletion `del self._kv_data[key]`: remove the entry for `key`. -/
def kvDel : List (Key × Nat × Val) → Key → List (Key × Nat × Val)
  | [], _ => []
  | (k, q) :: rest, key => if k = key then rest else (k, q) :: kvDel rest key

/-- The state of a `KVCache` instance: `_maxsize`, `_time_extension`,
`_kv_data` (the primary index) and `_sorted_keys` (the expiry queue). -/
structure KVCache where
  maxsize : Nat
  time_extension : Nat
  kv_data : List (Key × Nat × Val)
  sorted_keys : List QElem
deriving DecidableEq, Repr

namespace KVCache

/-- Sentinel constant `KVCache.INFINITE_TIME_SEC = 10000 * 365 * 24 * 60 * 60`, the infinite
expiry sentinel. -/
def INFINITE_TIME_SEC : Nat := 10000 * 365 * 24 * 60 * 60

/-- Model of `KVCache._get_refreshed_expire_time` (cache.py lines 130-133): the
smaller of `time() + extension` and `expire_value + extension`. -/
def get_refreshed_expire_time (c : KVCache) (now expire_value : Nat) : Nat :=
  let new_refresh := now + c.time_extension
  let new_expire := expire_value + c.time_extension
  if new_expire < new_refresh then new_expire else new_refresh

/-- Model of `KVCache.get` (cache.py lines 135-155).  Returns the looked-up value (or
`none`) together with the state after the call.  The body runs under
`_release_lock(LockType.R_LOCK)`; it never raises, so the exception-swallowing
of `_release_lock` plays no role here. -/
def get (c : KVCache) (now : Nat) (key : Key) : Option Val × KVCache :=
  match kvLookup c.kv_data key with
  | none => (none, c)
  | some (expire_value, value) =>
    if expire_value < now then
      (none, { c with kv_data := kvDel c.kv_data key })
    else
      let refreshed := c.get_refreshed_expire_time now expire_value
      (some value, { c with kv_data := kvSet c.kv_data key (refreshed, value) })

/-- Outcome of `KVCache._heapq_newset`: a boolean result with the new state,
an exception escaping the call (carrying the state at the raise point), or
loop fuel exhausted (never relied upon). -/
inductive NewsetRes
  | ok (b : Bool) (c : KVCache)
  | raised (c : KVCache)
  | no_fuel
deriving DecidableEq, Repr

/-- The `while True` reconciliation loop of `KVCache._heapq_newset`
(cache.py lines 105-127).  One unit of fuel per iteration.  Note line 110
evaluates `pop_value[1]`, which raises `TypeError` on a bare number record,
and line 117 pushes `(expire_value, key)` — the record of the key being
inserted — rather than the index's current record for the popped key. -/
def heapq_newset_loop : Nat → KVCache → Key → Val → Nat → NewsetRes
  | 0, _, _, _, _ => NewsetRes.no_fuel
  | fuel + 1, c, key, value, expire_value =>
    match popMin c.sorted_keys with
    | PopRes.ty_err => NewsetRes.raised c
    | PopRes.empty => NewsetRes.ok false c
    | PopRes.found pop_value rest =>
      let c1 : KVCache := { c with sorted_keys := rest }
      match subscript1 pop_value with
      | none => NewsetRes.raised c1
      | some pop_key =>
        match kvLookup c1.kv_data pop_key with
        | none =>
          NewsetRes.ok true
            { c1 with kv_data := kvSet c1.kv_data key (expire_value, value),
                      sorted_keys := qput (QElem.pair expire_value key) c1.sorted_keys }
        | some real_value =>
          if real_value.1 > elem0 pop_value then
            heapq_newset_loop fuel
              { c1 with sorted_keys := qput (QElem.pair expire_value key) c1.sorted_keys }
              key value expire_value
          else if expire_value < elem0 pop_value then
            NewsetRes.ok false c1
          else
            NewsetRes.ok true
              { c1 with kv_data := kvSet (kvDel c1.kv_data pop_key) key (expire_value, value),
                        sorted_keys := qput (QElem.pair expire_value key) c1.sorted_keys }

/-- Model of `KVCache._heapq_newset` (cache.py lines 97-128).  When under capacity
(or unbounded), line 100 `self._sorted_keys.put(expire_value, key)` enqueues
the bare number `expire_value` (`key` is the `block` argument), then stores
the entry; otherwise the reconciliation loop runs. -/
def heapq_newset (fuel : Nat) (c : KVCache) (key : Key) (value : Val)
    (expire_value : Nat) : NewsetRes :=
  if c.maxsize = 0 ∨ c.kv_data.length < c.maxsize then
    NewsetRes.ok true
      { c with sorted_keys := qput (QElem.num expire_value) c.sorted_keys,
               kv_data := kvSet c.kv_data key (expire_value, value) }
  else
    heapq_newset_loop fuel c key value expire_value

/-- The `for k, v in kvdict.items()` loop in the body of `KVCache.set`
(cache.py lines 88-94), run inside `_release_lock(LockType.W_LOCK)`.
A `False` from `_heapq_newset` returns `False` out of the `with` block.
An exception raised by `_heapq_newset` is caught and logged by
`_release_lock`, after which control resumes after the `with` block and the
function returns `True`, keeping all mutations made before the raise.
`none` models loop fuel exhaustion only. -/
def set_loop (fuel : Nat) (expire_value : Nat) :
    KVCache → List (Key × Val) → Option (Bool × KVCache)
  | c, [] => some (true, c)
  | c, (k, v) :: rest =>
    if (kvLookup c.kv_data k).isSome then
      set_loop fuel expire_value { c with kv_data := kvSet c.kv_data k (expire_value, v) } rest
    else
      match heapq_newset fuel c k v expire_value with
      | NewsetRes.ok true c2 => set_loop fuel expire_value c2 rest
      | NewsetRes.ok false c2 => some (false, c2)
      | NewsetRes.raised c2 => some (true, c2)
      | NewsetRes.no_fuel => none

/-- Model of `KVCache.set` (cache.py lines 72-95): reject a batch larger than
`maxsize` up front (before taking the lock, mutating nothing); otherwise
compute `expire_value` from `expire_sec` and `now` and run the update loop. -/
def set (fuel : Nat) (c : KVCache) (now : Nat) (kvdict : List (Key × Val))
    (expire_sec : Option Nat) : Option (Bool × KVCache) :=
  if c.maxsize ≠ 0 ∧ kvdict.length > c.maxsize then
    some (false, c)
  else
    let expire_value :=
      match expire_sec with
      | some es => if es < INFINITE_TIME_SEC then es + now else INFINITE_TIME_SEC
      | none => INFINITE_TIME_SEC
    set_loop fuel expire_value c kvdict

/-- The `while True` loop of `KVCache.pop_n_expired` (cache.py lines
168-187), run inside `_release_lock(LockType.R_LOCK)`.  `all_expired` is
`num == 0` computed at entry; `result` accumulates `result[pop_value[1]] =
real_value`, i.e. key ↦ `(expire, value)` pair.  A `TypeError` (raised at
`pop_value[1]` on a bare number record) is swallowed by `_release_lock`, so
the call returns the partial result with the record already popped.
`none` models loop fuel exhaustion only. -/
def pop_n_expired_loop : Nat → Nat → Bool → Nat → KVCache →
    List (Key × Nat × Val) → Option (List (Key × Nat × Val) × KVCache)
  | 0, _, _, _, _, _ => none
  | fuel + 1, now, all_expired, num, c, result =>
    match popMin c.sorted_keys with
    | PopRes.ty_err => some (result, c)
    | PopRes.empty => some (result, c)
    | PopRes.found pop_value rest =>
      let c1 : KVCache := { c with sorted_keys := rest }
      match subscript1 pop_value with
      | none => some (result, c1)
      | some pop_key =>
        match kvLookup c1.kv_data pop_key with
        | none => pop_n_expired_loop fuel now all_expired num c1 result
        | some real_value =>
          if real_value.1 > elem0 pop_value then
            let c2 : KVCache :=
              { c1 with sorted_keys := qput (QElem.pair real_value.1 pop_key) c1.sorted_keys }
            if all_expired = false ∧ num = 0 then some (result, c2)
            else pop_n_expired_loop fuel now all_expired num c2 result
          else if real_value.1 > now then
            some (result, c1)
          else
            let result2 := result ++ [(pop_key, real_value)]
            let c2 : KVCache := { c1 with kv_data := kvDel c1.kv_data pop_key }
            let num2 := if all_expired then num else num - 1
            if all_expired = false ∧ num2 = 0 then some (result2, c2)
            else pop_n_expired_loop fuel now all_expired num2 c2 result2

/-- Model of `KVCache.pop_n_expired` (cache.py lines 157-188). -/
def pop_n_expired (fuel : Nat) (c : KVCache) (now : Nat) (num : Nat) :
    Option (List (Key × Nat × Val) × KVCache) :=
  pop_n_expired_loop fuel now (num == 0) num c []

end KVCache

/-- The access mode requested from `_release_lock` by each cache operation,
as written in the source: `get` line 144 and `pop_n_expired` line 167 pass
`LockType.R_LOCK`; `set` line 87 and `clear` line 197 pass
`LockType.W_LOCK`. -/
inductive LockType
  | r_lock
  | w_lock
deriving DecidableEq, Repr

/-- Lock mode of `KVCache.get` (cache.py line 144). -/
def get_lock_type : LockType := LockType.r_lock

/-- Lock mode of `KVCache.set` (cache.py line 87). -/
def set_lock_type : LockType := LockType.w_lock

/-- Lock mode of `KVCache.pop_n_expired` (cache.py line 167). -/
def pop_n_expired_lock_type : LockType := LockType.r_lock

/-- Lock mode of `KVCache.clear` (cache.py line 197). -/
def clear_lock_type : LockType := LockType.w_lock

/-- The state of an `RWLock` instance (thread.py): the source variables
`_rwlock` and `_writers_waiting`, plus two ghost counters recording how many
threads currently hold a read hold (`readers`) and a write hold
(`writers`).  The ghosts are instrumentation only: the code's behaviour
depends solely on `rwlock` and `writers_waiting`. -/
structure RWLockState where
  rwlock : Int
  writers_waiting : Nat
  readers : Nat
  writers : Nat
deriving DecidableEq, Repr

/-- One completed `RWLock` operation, as a step relation.  Each acquisition
step is enabled exactly when the exit condition of the source's wait loop
holds (a blocked thread simply has no enabled step); its effect is the
assignment the source performs after the loop.  `release` in the source
dispatches on the sign of `_rwlock`; it is modelled by two steps guarded by
the ghost counters, restricting release to threads that actually hold the
lock.  Guards quoted from the source:
`acquire_read` waits while `_rwlock < 0 or _writers_waiting` (line 31) then
does `_rwlock += 1`; `acquire_write` waits while `_rwlock > 0` (line 44)
then does `_rwlock = -1`; `promote` first does `_rwlock -= 1`, waits while
`_rwlock > 0` then does `_rwlock = -1` (lines 58-64); `demote` does
`_rwlock = 1` (line 69); `release` does `_rwlock = 0` if `_rwlock < 0`
else `_rwlock -= 1` (lines 75-78). -/
inductive RWStep : RWLockState → RWLockState → Prop
  | acquire_read (s : RWLockState)
      (hguard : ¬ (s.rwlock < 0 ∨ 0 < s.writers_waiting)) :
      RWStep s { s with rwlock := s.rwlock + 1, readers := s.readers + 1 }
  | acquire_write (s : RWLockState)
      (hguard : ¬ 0 < s.rwlock) :
      RWStep s { s with rwlock := -1, writers := s.writers + 1 }
  | promote (s : RWLockState) (hr : 0 < s.readers)
      (hguard : ¬ 0 < s.rwlock - 1) :
      RWStep s { s with rwlock := -1, readers := s.readers - 1, writers := s.writers + 1 }
  | demote (s : RWLockState) (hw : 0 < s.writers) :
      RWStep s { s with rwlock := 1, writers := s.writers - 1, readers := s.readers + 1 }
  | release_read (s : RWLockState) (hr : 0 < s.readers) :
      RWStep s { s with rwlock := if s.rwlock < 0 then 0 else s.rwlock - 1,
                        readers := s.readers - 1 }
  | release_write (s : RWLockState) (hw : 0 < s.writers) :
      RWStep s { s with rwlock := if s.rwlock < 0 then 0 else s.rwlock - 1,
                        writers := s.writers - 1 }

/-- States reachable from a freshly constructed `RWLock`
(`_rwlock = 0`, `_writers_waiting = 0`, no holders). -/
inductive RWReachable : RWLockState → Prop
  | init : RWReachable { rwlock := 0, writers_waiting := 0, readers := 0, writers := 0 }
  | step {s t : RWLockState} : RWReachable s → RWStep s t → RWReachable t

/-- The holder pattern the spec asserts: zero or more readers and no
writer, or exactly one writer and no readers. -/
def mutual_exclusion (s : RWLockState) : Prop :=
  s.writers = 0 ∨ (s.writers = 1 ∧ s.readers = 0)

/-- Model of `RWLock.acquire_read` with a timeout, against a fixed lock state (the
worst case: no other thread ever changes the state).  Each unit of fuel is
one evaluation of the loop guard `_rwlock < 0 or _writers_waiting`
(thread.py line 31); between two evaluations the thread sits in
`Condition.wait(timeout)`, whose expiry merely returns control to the guard.
`some` is successful acquisition; `none` means the thread is still inside
the loop.  There is no error outcome because thread.py contains no `raise`
statement: a timeout expiry is never detected, contrary to the docstring's
promise of a `RuntimeError`. -/
def acquire_read_poll (s : RWLockState) : Nat → Option RWLockState
  | 0 => none
  | n + 1 =>
    if s.rwlock < 0 ∨ 0 < s.writers_waiting then acquire_read_poll s n
    else some { s with rwlock := s.rwlock + 1, readers := s.readers + 1 }

/-- Model of `RWLock.acquire_write` with a timeout, against a fixed lock state; same
reading as `acquire_read_poll`, with the loop guard `_rwlock > 0`
(thread.py line 44). -/
def acquire_write_poll (s : RWLockState) : Nat → Option RWLockState
  | 0 => none
  | n + 1 =>
    if 0 < s.rwlock then acquire_write_poll s n
    else some { s with rwlock := -1, writers := s.writers + 1 }

/-! Concrete cache and lock states used by the claim theorems.  Each cache
state is produced by the modelled API itself (the producing call is proved
as part of the corresponding theorem). -/

/-- A cache holding one never-expiring entry, as left by
`set({1: 7})` with no `expire_sec` on a fresh unbounded cache. -/
def sentinel_cache : KVCache :=
  { maxsize := 0, time_extension := 300,
    kv_data := [(1, (KVCache.INFINITE_TIME_SEC, 7))],
    sorted_keys := [QElem.num KVCache.INFINITE_TIME_SEC] }

/-- A `maxsize = 1` cache at capacity, as left by `set({1: 11}, 10)` at
time 0 on a fresh cache: the queue record is the bare number 10. -/
def full_cache : KVCache :=
  { maxsize := 1, time_extension := 300,
    kv_data := [(1, (10, 11))], sorted_keys := [QElem.num 10] }

/-- An unbounded cache with one entry that expired at time 10, as left by
`set({1: 11}, 10)` at time 0 on a fresh cache. -/
def expired_cache : KVCache :=
  { maxsize := 0, time_extension := 300,
    kv_data := [(1, (10, 11))], sorted_keys := [QElem.num 10] }

/-- An unbounded cache with one entry expiring exactly at time 100. -/
def boundary_cache : KVCache :=
  { maxsize := 0, time_extension := 300,
    kv_data := [(1, (100, 42))], sorted_keys := [QElem.num 100] }

/-- A `maxsize = 1` cache at capacity, as left by `set({3: 33}, 40)` at
time 0 on a fresh cache. -/
def full_cache2 : KVCache :=
  { maxsize := 1, time_extension := 300,
    kv_data := [(3, (40, 33))], sorted_keys := [QElem.num 40] }

/-- An unbounded cache with two live entries, for the frame property of
`get`. -/
def frame_cache : KVCache :=
  { maxsize := 0, time_extension := 300,
    kv_data := [(5, (100, 55)), (6, (200, 66))],
    sorted_keys := [QElem.num 100, QElem.num 200] }

/-- The lock state reached by two consecutive completed `acquire_write`
calls from two different threads. -/
def double_writer_state : RWLockState :=
  { rwlock := -1, writers_waiting := 0, readers := 0, writers := 2 }

/-- A lock state in which one writer holds the lock (`_rwlock = -1`). -/
def writer_held_state : RWLockState :=
  { rwlock := -1, writers_waiting := 0, readers := 0, writers := 1 }

/-- A lock state in which one reader holds the lock (`_rwlock = 1`). -/
def reader_held_state : RWLockState :=
  { rwlock := 1, writers_waiting := 0, readers := 1, writers := 0 }

/-! Helper lemmas about the association-list index. -/

/-- Writing a key stores its pair: looking the key up afterwards finds it. -/
theorem kvLookup_kvSet_self (l : List (Key × Nat × Val)) (key : Key) (p : Nat × Val) :
    kvLookup (kvSet l key p) key = some p := by
  induction l with
  | nil => simp [kvSet, kvLookup]
  | cons hd tl ih =>
    obtain ⟨k, q⟩ := hd
    by_cases hkey : k = key
    · simp [kvSet, kvLookup, hkey]
    · simp [kvSet, kvLookup, hkey, ih]

/-- Writing one key leaves the lookup of every other key unchanged. -/
theorem kvLookup_kvSet_ne (l : List (Key × Nat × Val)) (key k2 : Key) (p : Nat × Val)
    (h : k2 ≠ key) : kvLookup (kvSet l key p) k2 = kvLookup l k2 := by
  have h2 : key ≠ k2 := Ne.symm h
  induction l with
  | nil => simp [kvSet, kvLookup, h2]
  | cons hd tl ih =>
    obtain ⟨k, q⟩ := hd
    by_cases hkey : k = key
    · subst hkey
      simp [kvSet, kvLookup, h2]
    · simp [kvSet, kvLookup, hkey, ih]

/-! Claim theorems. -/

/-- C1 (code bug, supporting evaluation): `get` applies the refresh formula
to a sentinel ("never expires") entry as well.  Starting from a fresh
unbounded cache, `set({1: 7})` with no `expire_sec` stores the entry with
expiry `INFINITE_TIME_SEC`; a hit at time 1000 with extension 300 then
rewrites its expiry to `now + extension = 1300`, collapsing the sentinel —
the claim says a hit leaves a sentinel expiry unchanged and never sets it
to `now + extension`. -/
theorem get_collapses_sentinel_expiry :
    KVCache.set 5 { maxsize := 0, time_extension := 300, kv_data := [], sorted_keys := [] } 0
        [(1, 7)] none = some (true, sentinel_cache) ∧
    KVCache.get sentinel_cache 1000 1 =
      (some 7, { sentinel_cache with kv_data := [(1, (1300, 7))] }) ∧
    (1300 : Nat) ≠ KVCache.INFINITE_TIME_SEC := by
  refine ⟨by decide, by decide, by decide⟩

/-- C2 (code bug, supporting evaluation): the state in which two threads
hold the write lock simultaneously is reachable, by two consecutive
`acquire_write` calls — the wait loop guard at thread.py line 44 is
`_rwlock > 0`, which does not block a second writer when `_rwlock = -1`.
This violates the claimed holder invariant (readers XOR one writer). -/
theorem rwlock_two_writers_reachable :
    RWReachable double_writer_state ∧ ¬ mutual_exclusion double_writer_state := by
  constructor
  · have h0 : RWReachable { rwlock := 0, writers_waiting := 0, readers := 0, writers := 0 } :=
      RWReachable.init
    have h1 : RWReachable { rwlock := -1, writers_waiting := 0, readers := 0, writers := 1 } :=
      RWReachable.step h0 (RWStep.acquire_write _ (by decide))
    exact RWReachable.step h1 (RWStep.acquire_write _ (by decide))
  · unfold mutual_exclusion double_writer_state
    decide

/-- C3 (code bug, supporting evaluation): inserting a new key into a full
`maxsize = 1` cache does not evict the minimal-expiry live entry.  The
queue record left by the first insertion is the bare number 10 (line 100
passes `key` as the `block` argument of `put`), so the eviction loop's
`pop_value[1]` raises `TypeError`; `_release_lock` swallows it and `set`
returns `True` with the old entry still present, the new key absent, and
the queue record lost. -/
theorem eviction_loop_type_error :
    KVCache.set 5 { maxsize := 1, time_extension := 300, kv_data := [], sorted_keys := [] } 0
        [(1, 11)] (some 10) = some (true, full_cache) ∧
    KVCache.set 5 full_cache 0 [(2, 22)] (some 100) =
      some (true, { full_cache with sorted_keys := [] }) ∧
    kvLookup { full_cache with sorted_keys := ([] : List QElem) }.kv_data 2 = none := by
  refine ⟨by decide, by decide, by decide⟩

/-- C4 (code bug, supporting evaluation): a timed lock acquisition never
fails.  With a writer holding the lock (resp. a reader, for the write
side) and never releasing, the acquisition loop re-enters
`Condition.wait(timeout)` after every timeout expiry, for any number of
expiries: the call neither acquires nor raises — thread.py contains no
`raise` at all, contrary to its docstring's promised `RuntimeError` and to
the claimed `LockTimeout` failure within the requested bound. -/
theorem lock_timeout_never_raised :
    (∀ n, acquire_read_poll writer_held_state n = none) ∧
    (∀ n, acquire_write_poll reader_held_state n = none) := by
  constructor
  · intro n
    induction n with
    | zero => rfl
    | succ n ih => simpa [acquire_read_poll, writer_held_state] using ih
  · intro n
    induction n with
    | zero => rfl
    | succ n ih => simpa [acquire_write_poll, reader_held_state] using ih

/-- C5 (confirmed): on a bounded cache, a `set` whose batch has more
entries than `maxsize` fails fast: it returns `False` and the entire cache
state — primary index and expiry queue alike — is returned unchanged,
whatever the current contents (the check at cache.py lines 80-82 runs
before the lock is taken and before any mutation). -/
theorem set_rejects_oversized_batch (fuel : Nat) (c : KVCache) (now : Nat)
    (kvdict : List (Key × Val)) (expire_sec : Option Nat)
    (hm : c.maxsize ≠ 0) (hlen : kvdict.length > c.maxsize) :
    KVCache.set fuel c now kvdict expire_sec = some (false, c) := by
  unfold KVCache.set
  rw [if_pos ⟨hm, hlen⟩]

/-- C5 witness: a two-entry batch on an empty cache with `maxsize = 1`. -/
theorem set_rejects_oversized_batch_witness :
    KVCache.set 1 { maxsize := 1, time_extension := 300, kv_data := [], sorted_keys := [] } 0
        [(1, 10), (2, 20)] (some 50) =
      some (false, { maxsize := 1, time_extension := 300, kv_data := [], sorted_keys := [] }) :=
  set_rejects_oversized_batch 1 _ 0 _ (some 50) (by decide) (by decide)

/-- C6 (code bug, supporting evaluation): `pop_n_expired(0)` fails to
return an expired entry.  After `set({1: 11}, 10)` at time 0 on a fresh
unbounded cache, the entry's canonical expiry 10 is ≤ now = 50, yet
`pop_n_expired(0)` returns an empty mapping and leaves the key in the
index: the queue record is the bare number 10, `pop_value[1]` raises
`TypeError`, `_release_lock` swallows it, and the popped record is lost. -/
theorem pop_n_expired_returns_nothing :
    KVCache.set 5 { maxsize := 0, time_extension := 300, kv_data := [], sorted_keys := [] } 0
        [(1, 11)] (some 10) = some (true, expired_cache) ∧
    KVCache.pop_n_expired 5 expired_cache 50 0 =
      some ([], { expired_cache with sorted_keys := [] }) := by
  refine ⟨by decide, by decide⟩

/-- C7 counterexample: a key whose expiry equals the current time is not
deleted.  With the entry `(1, (100, 42))` and `now = 100`, `get` returns
the value and refreshes the expiry (to 400), because the deletion test at
cache.py line 148 is the strict `time() > expire_value`; the claim says an
expiry at or before now (including `expiry = now`) is deleted and
not-found returned. -/
theorem get_at_exact_expiry_returns_value :
    KVCache.get boundary_cache 100 1 =
      (some 42, { boundary_cache with kv_data := [(1, (400, 42))] }) := by
  decide

/-- C7 (corrected): for a present key, `get` deletes the entry and returns
not-found exactly when the expiry is strictly before now (`now > expiry`);
when `now ≤ expiry` — including `expiry = now` and the sentinel, which is
just a very large expiry — it returns the stored value and refreshes the
expiry. -/
theorem get_expiry_boundary (c : KVCache) (now key e v : Nat)
    (hk : kvLookup c.kv_data key = some (e, v)) :
    (e < now → KVCache.get c now key = (none, { c with kv_data := kvDel c.kv_data key })) ∧
    (now ≤ e → (KVCache.get c now key).1 = some v ∧
      kvLookup (KVCache.get c now key).2.kv_data key =
        some (c.get_refreshed_expire_time now e, v)) := by
  constructor
  · intro h
    simp [KVCache.get, hk, h]
  · intro h
    have hnl : ¬ e < now := Nat.not_lt.mpr h
    simp [KVCache.get, hk, hnl, kvLookup_kvSet_self]

/-- C7 witness: the amended boundary behaviour evaluated at `now = 150` on
the entry expiring at 100. -/
theorem get_expiry_boundary_witness :
    KVCache.get boundary_cache 150 1 =
      (none, { boundary_cache with kv_data := kvDel boundary_cache.kv_data 1 }) := by
  have h := get_expiry_boundary boundary_cache 150 1 100 42 (by decide)
  exact h.1 (by decide)

/-- C8 (code bug, supporting evaluation): an error raised inside a cache
operation's locked body is swallowed and turned into a success result.
With a full `maxsize = 1` cache, inserting a new key makes the locked body
of `set` raise `TypeError` (bare queue record); `_release_lock` catches and
only logs it, control resumes after the `with` block, and `set` returns
`True` even though the new key was never stored — the claim says no cache
operation catches an error from its guarded body and then reports
success. -/
theorem set_swallows_exception :
    KVCache.set 5 { maxsize := 1, time_extension := 300, kv_data := [], sorted_keys := [] } 0
        [(3, 33)] (some 40) = some (true, full_cache2) ∧
    KVCache.set 5 full_cache2 0 [(4, 44)] (some 200) =
      some (true, { full_cache2 with sorted_keys := [] }) ∧
    kvLookup { full_cache2 with sorted_keys := ([] : List QElem) }.kv_data 4 = none := by
  refine ⟨by decide, by decide, by decide⟩

/-- C9 (code bug, supporting evaluation): `get` requests only the shared
read lock.  cache.py line 144 passes `LockType.R_LOCK` to `_release_lock`
(and `pop_n_expired` at line 167 does the same), not the exclusive
`W_LOCK` used by `set` and `clear` — even though `get` mutates the index,
witnessed here by a call whose resulting state differs from its input
state.  The claim says every `get` runs under exclusive (write) access. -/
theorem get_runs_under_read_lock :
    get_lock_type = LockType.r_lock ∧ get_lock_type ≠ LockType.w_lock ∧
    pop_n_expired_lock_type = LockType.r_lock ∧
    (∃ (c : KVCache) (now key : Nat), (KVCache.get c now key).2 ≠ c) := by
  refine ⟨rfl, by decide, rfl,
    ⟨{ maxsize := 0, time_extension := 300, kv_data := [(1, (10, 5))], sorted_keys := [] },
      50, 1, by decide⟩⟩

/-- C10 (confirmed): on a hit of a present, live key, `get` returns the
stored value, re-stores that same value under the key with only the expiry
component refreshed, and leaves every other key's index entry, the queue,
and the configuration exactly unchanged. -/
theorem get_frame (c : KVCache) (now key e v : Nat)
    (hk : kvLookup c.kv_data key = some (e, v)) (hlive : ¬ e < now) :
    (KVCache.get c now key).1 = some v ∧
    kvLookup (KVCache.get c now key).2.kv_data key =
      some (c.get_refreshed_expire_time now e, v) ∧
    (∀ k2, k2 ≠ key →
      kvLookup (KVCache.get c now key).2.kv_data k2 = kvLookup c.kv_data k2) ∧
    (KVCache.get c now key).2.maxsize = c.maxsize ∧
    (KVCache.get c now key).2.time_extension = c.time_extension ∧
    (KVCache.get c now key).2.sorted_keys = c.sorted_keys := by
  have hget : KVCache.get c now key =
      (some v, { c with kv_data := kvSet c.kv_data key (c.get_refreshed_expire_time now e, v) }) := by
    simp [KVCache.get, hk, hlive]
  rw [hget]
  exact ⟨rfl, kvLookup_kvSet_self _ _ _,
    fun k2 h2 => kvLookup_kvSet_ne _ _ _ _ h2, rfl, rfl, rfl⟩

/-- C10 witness: the frame property evaluated on a two-entry cache — the
hit on key 5 returns 55 and leaves key 6's entry as it was. -/
theorem get_frame_witness :
    (KVCache.get frame_cache 90 5).1 = some 55 ∧
    kvLookup (KVCache.get frame_cache 90 5).2.kv_data 6 = kvLookup frame_cache.kv_data 6 := by
  have h := get_frame frame_cache 90 5 100 55 (by decide) (by decide)
  exact ⟨h.1, h.2.2.1 6 (by decide)⟩
